import Mathlib

/-!
Shallow embedding of the lxd client/daemon communication core: the wire-protocol
envelope (client.go), the asynchronous operation state machine (operation file),
and the trust-establishment handlers (trust handler file).  Pure data is modelled
directly; external capabilities (hashing, base64, x509 parsing, JSON marshalling
of strings) are passed in as explicit function parameters; file-system and
network effects are modelled by explicit state records and by parameters that
carry the outcome the environment produced.  A Go runtime panic is modelled as
the `none` case of an `Option` result.
-/

/-- JSON values as handled by the serialization layer.  Numbers are modelled as
integers (no claim depends on fractional numbers). -/
inductive Json where
  | null
  | bool (b : Bool)
  | num (n : Int)
  | str (s : String)
  | arr (elems : List Json)
  | obj (fields : List (String × Json))

/-- Association-list model of a Go map write `m[k] = v`: replaces the binding if
the key is present, otherwise appends it. -/
def mapInsert {α : Type} (m : List (String × α)) (k : String) (v : α) : List (String × α) :=
  match m with
  | [] => [(k, v)]
  | (k', v') :: rest => if k' = k then (k, v) :: rest else (k', v') :: mapInsert rest k v

/-- Association-list model of a Go map read `m[k]`. -/
def mapLookup {α : Type} (m : List (String × α)) (k : String) : Option α :=
  match m with
  | [] => none
  | (k', v') :: rest => if k' = k then some v' else mapLookup rest k

/-! ## Envelope (client.go): ResponseType constants and the Response struct -/

def Sync : String := "sync"

def Async : String := "async"

def Error : String := "error"

/-- The Response struct of client.go.  The Go field `Type` is named `Ty` here
because `Type` is reserved in Lean; `Metadata` is the raw message, `none`
standing for Go's nil RawMessage. -/
structure Response where
  Ty : String
  Result : String
  Operation : String
  Code : Int
  Error : String
  Metadata : Option Json

/-- The zero value of the Response struct. -/
def zeroResponse : Response :=
  { Ty := "", Result := "", Operation := "", Code := 0, Error := "", Metadata := none }

/-- One step of Go's `json.Unmarshal` into the Response struct: assign one
object entry to its field.  A JSON null leaves the field untouched; a value of
the wrong type is a decoding error; unknown keys are ignored; `metadata` is a
RawMessage and accepts any value (including null, stored raw). -/
def setField (r : Response) (k : String) (v : Json) : Option Response :=
  if k = "type" then
    match v with
    | Json.str s => some { r with Ty := s }
    | Json.null => some r
    | _ => none
  else if k = "result" then
    match v with
    | Json.str s => some { r with Result := s }
    | Json.null => some r
    | _ => none
  else if k = "operation" then
    match v with
    | Json.str s => some { r with Operation := s }
    | Json.null => some r
    | _ => none
  else if k = "error_code" then
    match v with
    | Json.num n => some { r with Code := n }
    | Json.null => some r
    | _ => none
  else if k = "error" then
    match v with
    | Json.str s => some { r with Error := s }
    | Json.null => some r
    | _ => none
  else if k = "metadata" then some { r with Metadata := some v }
  else some r

/-- Fold the object entries in order (later duplicate keys overwrite, as in Go). -/
def unmarshalFields (r : Response) : List (String × Json) → Option Response
  | [] => some r
  | (k, v) :: rest =>
    match setField r k v with
    | none => none
    | some r' => unmarshalFields r' rest

/-- Go's `json.Unmarshal` of a body into the Response struct: the body must be a
JSON object (or null, which leaves the zero value); anything else fails. -/
def unmarshalResponse : Json → Option Response
  | Json.null => some zeroResponse
  | Json.obj fields => unmarshalFields zeroResponse fields
  | _ => none

/-- ParseResponse of client.go.  The argument is the fully read response body as
structured data; `none` models a read failure or a body that is not
syntactically valid JSON.  The result is `none` exactly when ParseResponse
returns a non-nil error. -/
def ParseResponse (body : Option Json) : Option Response :=
  match body with
  | none => none
  | some j => unmarshalResponse j

/-- ParseError of client.go: `some msg` models the non-nil error built from the
envelope's error string; `none` models a nil error. -/
def ParseError (r : Response) : Option String :=
  if r.Ty = Error then some r.Error else none

/-! ## Operation state machine (the operation source file) -/

def Pending : String := "pending"

def Running : String := "running"

def Done : String := "done"

def Cancelling : String := "cancelling"

def Cancelled : String := "cancelled"

/-- The StatusCodes map; a Go map read of an absent key yields the zero value 0. -/
def StatusCodes (s : String) : Int :=
  if s = Pending then 0
  else if s = Running then 1
  else if s = Done then 2
  else if s = Cancelling then 3
  else if s = Cancelled then 4
  else 0

def Success : String := "success"

def Failure : String := "failure"

/-- The ResultCodes map; absent keys yield the zero value 0. -/
def ResultCodes (r : String) : Int :=
  if r = Failure then 0
  else if r = Success then 1
  else 0

/-- The Operation struct.  Timestamps are abstract instants (Nat); the run and
cancel hooks and the completion channel are opaque tokens — no claim invokes
them, only their preservation matters. -/
structure Operation where
  CreatedAt : Nat
  UpdatedAt : Nat
  Status : String
  StatusCode : Int
  Result : String
  ResultCode : Int
  ResourceURL : String
  Metadata : Option Json
  MayCancel : Bool
  Run : Nat
  Cancel : Nat
  Chan : Nat

/-- Operation.SetStatus; `now` is the instant returned by the clock at the call. -/
def Operation.SetStatus (o : Operation) (status : String) (now : Nat) : Operation :=
  let o1 := { o with Status := status, StatusCode := StatusCodes status, UpdatedAt := now }
  if status = Done ∨ status = Cancelling ∨ status = Cancelled then
    { o1 with MayCancel := false }
  else o1

/-- Operation.SetResult; `err` is the completion error (none = nil), `marshal`
is the JSON string-marshalling capability (`none` models a marshal failure,
whose nil byte slice is still assigned to Metadata — the failure is only
logged, never propagated). -/
def Operation.SetResult (o : Operation) (err : Option String) (now : Nat)
    (marshal : String → Option Json) : Operation :=
  match err with
  | none =>
    { o with Result := Success, ResultCode := ResultCodes Success, UpdatedAt := now }
  | some msg =>
    { o with Result := Failure, ResultCode := ResultCodes Failure,
             Metadata := marshal msg, UpdatedAt := now }

/-! ## Client state and dispatch helpers (client.go) -/

/-- A certificate, identified by its raw DER bytes. -/
structure Cert where
  raw : List Nat

/-- External cryptographic and parsing capabilities that the source uses from
libraries outside this repository, passed in explicitly. -/
structure ExtCap where
  sha256 : List Nat → List Nat
  scryptKey : String → List Nat → Nat → Nat → Nat → Nat → List Nat
  base64Decode : String → Option (List Nat)
  x509Parse : List Nat → Option Cert

/-- The TLS connection state visible on a response: the first peer certificate's
raw bytes (resp.TLS.PeerCertificates[0].Raw). -/
structure ConnState where
  peerFirstRaw : List Nat

/-- One HTTP exchange's outcome, as the dispatch helpers observe it: the status
code, the optional TLS state (none for the local channel), the headers, an
opaque handle for the raw body stream, and the fully read body as structured
data (`none` = read failure or syntactically invalid JSON). -/
structure HttpResp where
  statusCode : Int
  tls : Option ConnState
  header : List (String × String)
  bodyStream : Nat
  body : Option Json

/-- The certificate-relevant part of the Client struct of client.go. -/
structure Client where
  name : String
  scert : Option Cert
  scertWire : Option Cert
  scertDigest : List Nat
  scertDigestSet : Bool

/-- Wrap ParseResponse's (value, error) pair into one channel. -/
def parseResponseExc (body : Option Json) : Except String Response :=
  match ParseResponse body with
  | some r => Except.ok r
  | none => Except.error "malformed envelope"

/-- The tail of Client.get after the pin check: record the wire certificate and
its digest on first sight, then decode the body. -/
def Client.getTail (ext : ExtCap) (c : Client) (r : HttpResp) : Client × Except String Response :=
  let c1 :=
    match r.tls with
    | some t =>
      if c.scertDigestSet = false then
        { c with scertWire := some ⟨t.peerFirstRaw⟩,
                 scertDigest := ext.sha256 t.peerFirstRaw,
                 scertDigestSet := true }
      else c
    | none => c
  (c1, parseResponseExc r.body)

/-- Client.get of client.go.  `resp` is the HTTP call's outcome (`none` = a
transport error).  The pinned certificate is compared byte-for-byte against the
peer certificate before the body is decoded. -/
def Client.get (ext : ExtCap) (c : Client) (resp : Option HttpResp) :
    Client × Except String Response :=
  match resp with
  | none => (c, Except.error "transport error")
  | some r =>
    match c.scert, r.tls with
    | some s, some t =>
      if t.peerFirstRaw = s.raw then Client.getTail ext c r
      else (c, Except.error "Server certificate has changed")
    | some _, none => Client.getTail ext c r
    | none, _ => Client.getTail ext c r

/-- Client.put of client.go: encode the arguments, issue the request, decode the
body.  No certificate comparison appears in the source. -/
def Client.put (c : Client) (args : Json) (resp : Option HttpResp) :
    Client × Except String Response :=
  match resp with
  | none => (c, Except.error "transport error")
  | some r => (c, parseResponseExc r.body)

/-- Client.post of client.go.  No certificate comparison appears in the source. -/
def Client.post (c : Client) (args : Json) (resp : Option HttpResp) :
    Client × Except String Response :=
  match resp with
  | none => (c, Except.error "transport error")
  | some r => (c, parseResponseExc r.body)

/-- Client.delete_ of client.go.  No certificate comparison appears in the source. -/
def Client.delete_ (c : Client) (args : Json) (resp : Option HttpResp) :
    Client × Except String Response :=
  match resp with
  | none => (c, Except.error "transport error")
  | some r => (c, parseResponseExc r.body)

/-! ## TOFU confirmation (Client.UserAuthServerCert of client.go) -/

/-- The environment of one UserAuthServerCert call: the first byte of the line
read from stdin (`none` = read error; the source inspects only the first byte),
the HOME directory, and whether the directory creation and the certificate-file
creation succeed. -/
structure AuthEnv where
  stdinFirst : Option Char
  homedir : String
  mkdirOk : Bool
  createOk : Bool

/-- The part of UserAuthServerCert after the stdin read: inspect the first byte
of the line (`none` = the read itself errored), then on acknowledgement create
the directory and the file and write the wire certificate. -/
def userAuthAfterRead (c : Client) (env : AuthEnv) :
    Option Char → Option (Option String × Option (String × List Nat))
  | none => some (some "read error", none)
  | some ch =>
    if ch ≠ 'y' ∧ ch ≠ 'Y' then some (some "Server certificate NACKed by user", none)
    else if env.homedir = "" then some (some "Could not find homedir", none)
    else if env.mkdirOk = false then some (some "Could not create server cert dir", none)
    else if env.createOk = false then some (some "create failed", none)
    else
      match c.scertWire with
      | none => none
      | some w =>
        some (none, some (env.homedir ++ "/.config/lxc/servercerts/" ++ c.name ++ ".crt", w.raw))

/-- Client.UserAuthServerCert of client.go.  The result is the returned error
(`none` = nil) together with the file write it performed (path and bytes), if
any; the outer `none` models the runtime panic of dereferencing a nil wire
certificate after an acknowledgement. -/
def Client.UserAuthServerCert (c : Client) (env : AuthEnv) :
    Option (Option String × Option (String × List Nat)) :=
  if c.scertDigestSet = false then some (some "No certificate on this connection", none)
  else userAuthAfterRead c env env.stdinFirst

/-! ## File pull (Client.PullFile of client.go) -/

/-- Parse a nonempty octal digit string. -/
def parseOctal (s : String) : Option Nat :=
  if s = "" then none
  else
    s.data.foldl
      (fun acc c =>
        match acc with
        | none => none
        | some n => if '0' ≤ c ∧ c ≤ '7' then some (8 * n + (c.toNat - '0'.toNat)) else none)
      (some 0)

/-- Modelled from the spec: ParseLXDFileHeaders is not in src/; per the spec the
custom headers X-LXD-uid and X-LXD-gid carry decimal strings and X-LXD-mode an
octal string, and a missing or invalid header is an error. -/
def ParseLXDFileHeaders (header : List (String × String)) : Option (Int × Int × Nat) :=
  match mapLookup header "X-LXD-uid", mapLookup header "X-LXD-gid",
        mapLookup header "X-LXD-mode" with
  | some u, some g, some m =>
    match u.toNat?, g.toNat?, parseOctal m with
    | some un, some gn, some mn => some ((un : Int), (gn : Int), mn)
    | _, _, _ => none
  | _, _, _ => none

/-- The five return values of Client.PullFile: uid, gid, mode, the body stream
handle (`none` = nil io.ReadCloser) and the error (`none` = nil). -/
structure PullOut where
  uid : Int
  gid : Int
  mode : Nat
  body : Option Nat
  err : Option String
deriving DecidableEq

/-- Client.PullFile of client.go; `resp` is the GET's outcome (`none` = a
transport error). -/
def Client.PullFile (c : Client) (resp : Option HttpResp) : PullOut :=
  match resp with
  | none => ⟨0, 0, 0, none, some "transport error"⟩
  | some r =>
    if r.statusCode ≠ 200 then
      match ParseResponse r.body with
      | none => ⟨0, 0, 0, none, some "malformed envelope"⟩
      | some p => ⟨0, 0, 0, none, ParseError p⟩
    else
      match ParseLXDFileHeaders r.header with
      | none => ⟨0, 0, 0, none, some "invalid file headers"⟩
      | some (u, g, m) => ⟨u, g, m, some r.bodyStream, none⟩

/-! ## Daemon trust handlers (the trust source file) -/

/-- Modelled from the spec: the salt length of the stored password file is a
fixed constant whose definition is not in src/. -/
def PW_SALT_BYTES : Nat := 32

/-- Modelled from the spec: the derived-key length of the stored password file
is a fixed constant whose definition is not in src/. -/
def PW_HASH_BYTES : Nat := 64

/-- The daemon state the trust handlers touch: the in-memory client-certificate
map, the contents of the adminpwd file (`none` = the file does not open), and
the on-disk client-certificate store (host ↦ written certificate bytes). -/
structure Daemon where
  clientCerts : List (String × Cert)
  adminPwdFile : Option (List Nat)
  clientCertFiles : List (String × List Nat)

/-- Daemon.hasPwd: whether the adminpwd file opens. -/
def Daemon.hasPwd (d : Daemon) : Bool := d.adminPwdFile.isSome

/-- A single Read into a zeroed buffer of length `n`: up to `n` bytes come from
the file, the rest of the buffer stays zero. -/
def readInto (n : Nat) (contents : List Nat) : List Nat :=
  contents.take n ++ List.replicate (n - contents.length) 0

/-- Daemon.verifyAdminPwd: false if the password file is absent or empty,
otherwise compare the scrypt key (cost parameters N = 2^14, r = 8, p = 1)
derived from the submitted password and the stored salt against the stored
derived key. -/
def Daemon.verifyAdminPwd (ext : ExtCap) (d : Daemon) (password : String) : Bool :=
  match d.adminPwdFile with
  | none => false
  | some contents =>
    if contents.length = 0 then false
    else
      let buff := readInto (PW_SALT_BYTES + PW_HASH_BYTES) contents
      let salt := buff.take PW_SALT_BYTES
      let hash := ext.scryptKey password salt (2 ^ 14) 8 1 PW_HASH_BYTES
      hash == buff.drop PW_SALT_BYTES

/-- The trustPostBody struct (the Go field `Type` is named `Ty` here). -/
structure trustPostBody where
  Ty : String
  Certificate : String
  Password : String

/-- The request's TLS state as the daemon sees it: the peer certificate chain
and the SNI server name. -/
structure TLSRequestState where
  peerCerts : List Cert
  serverName : String

/-- The file-system outcome available to one trust-establishment call. -/
structure TrustEnv where
  saveCertOk : Bool

/-- The daemon-side response values the trust handlers produce. -/
inductive DResponse where
  | EmptySyncResponse
  | BadRequest (msg : String)
  | InternalError (msg : String)
  | NotFound
deriving DecidableEq

/-- saveCert of the trust handler file: write the certificate under
clientcerts/<host>.crt (the MkdirAll error is ignored in the source; the
OpenFile outcome is `env.saveCertOk`). -/
def saveCert (env : TrustEnv) (files : List (String × List Nat)) (host : String)
    (cert : Cert) : Except String (List (String × List Nat)) :=
  if env.saveCertOk then Except.ok (mapInsert files host cert.raw)
  else Except.error "open failed"

/-- The common tail of trustPost once a certificate is in hand: persist it, then
record it in the client-certificate map keyed by the TLS server name. -/
def Daemon.trustPostWith (d : Daemon) (tls : TLSRequestState) (env : TrustEnv)
    (cert : Cert) : Daemon × DResponse :=
  match saveCert env d.clientCertFiles tls.serverName cert with
  | Except.error e => (d, DResponse.InternalError e)
  | Except.ok files =>
    ({ d with clientCertFiles := files,
              clientCerts := mapInsert d.clientCerts tls.serverName cert },
     DResponse.EmptySyncResponse)

/-- trustPost of the trust handler file.  `reqBody` is the decoded request body
(`none` = ReadToJson failed).  The outer `none` models the runtime panic of
indexing an empty peer-certificate list.  Note that the submitted Password is
never consulted anywhere on this path. -/
def Daemon.trustPost (ext : ExtCap) (d : Daemon) (tls : TLSRequestState) (env : TrustEnv)
    (reqBody : Option trustPostBody) : Option (Daemon × DResponse) :=
  match reqBody with
  | none => some (d, DResponse.BadRequest "invalid request body")
  | some req =>
    if req.Certificate ≠ "" then
      match ext.base64Decode req.Certificate with
      | none => some (d, DResponse.BadRequest "base64 decode failed")
      | some data =>
        match ext.x509Parse data with
        | none => some (d, DResponse.BadRequest "certificate parse failed")
        | some cert => some (Daemon.trustPostWith d tls env cert)
    else
      match tls.peerCerts.getLast? with
      | none => none
      | some cert => some (Daemon.trustPostWith d tls env cert)

/-! ## Concrete fixtures shared by the theorems below -/

/-- A concrete instantiation of the external capabilities, for evaluation. -/
def ext0 : ExtCap :=
  { sha256 := fun l => l,
    scryptKey := fun _ _ _ _ _ dkLen => List.replicate dkLen 1,
    base64Decode := fun s => some (s.data.map Char.toNat),
    x509Parse := fun bs => some ⟨bs⟩ }

/-- A running, cancellable operation. -/
def op0 : Operation :=
  { CreatedAt := 0, UpdatedAt := 0, Status := Running, StatusCode := 1, Result := "",
    ResultCode := 0, ResourceURL := "/1.0/containers/web1", Metadata := none,
    MayCancel := true, Run := 1, Cancel := 2, Chan := 3 }

/-- A string marshaller that succeeds. -/
def marshal0 : String → Option Json := fun s => some (Json.str s)

/-- A string marshaller that fails (returns a nil byte slice). -/
def marshalFail : String → Option Json := fun _ => none

def pinnedC2 : Cert := ⟨[1, 2, 3]⟩

/-- A client with a pinned server certificate. -/
def clientC2 : Client :=
  { name := "r1", scert := some pinnedC2, scertWire := some pinnedC2,
    scertDigest := [1], scertDigestSet := true }

/-- A response whose TLS peer certificate differs from the pinned one and whose
body is a well-formed sync envelope. -/
def respC2 : HttpResp :=
  { statusCode := 200, tls := some ⟨[9, 9, 9]⟩, header := [], bodyStream := 0,
    body := some (Json.obj [("type", Json.str "sync")]) }

def envC2 : Response := { zeroResponse with Ty := "sync" }

/-! ## Helper lemmas -/

/-- Explicit form of SetStatus as a single record update. -/
theorem setStatus_eq (o : Operation) (s : String) (now : Nat) :
    Operation.SetStatus o s now =
      { o with Status := s, StatusCode := StatusCodes s, UpdatedAt := now,
               MayCancel :=
                 if s = Done ∨ s = Cancelling ∨ s = Cancelled then false
                 else o.MayCancel } := by
  unfold Operation.SetStatus
  by_cases hc : s = Done ∨ s = Cancelling ∨ s = Cancelled
  · simp [hc]
  · simp [hc]

/-! ## C1: the password gate on trust establishment -/

/-- A daemon with a stored admin password file: 32 salt bytes then 64 stored
derived-key bytes, all of value 2 (so that the ext0 scrypt key, all ones, does
not match). -/
def dC1 : Daemon :=
  { clientCerts := [],
    adminPwdFile := some (List.replicate PW_SALT_BYTES 0 ++ List.replicate PW_HASH_BYTES 2),
    clientCertFiles := [] }

def reqC1 : trustPostBody := { Ty := "client", Certificate := "AB", Password := "wrongpassword" }

def tlsC1 : TLSRequestState := { peerCerts := [], serverName := "host1" }

/-- The certificate that ext0 decodes from the base64 field "AB". -/
def certC1 : Cert := ⟨[65, 66]⟩

/-- Claim C1, code bug: the daemon has a stored admin password and the
submitted password does not verify against it, yet trustPost adds the
certificate to the in-memory client-certificate map and to the on-disk store
and returns the empty sync response — the handler never consults
verifyAdminPwd (the parsed Password field is dead), contradicting the spec's
password gate. -/
theorem C1_trustPost_ignores_admin_password :
    Daemon.hasPwd dC1 = true ∧
    Daemon.verifyAdminPwd ext0 dC1 reqC1.Password = false ∧
    Daemon.trustPost ext0 dC1 tlsC1 ⟨true⟩ (some reqC1) =
      some ({ dC1 with clientCerts := [("host1", certC1)],
                       clientCertFiles := [("host1", certC1.raw)] },
            DResponse.EmptySyncResponse) := by
  refine ⟨rfl, by decide, rfl⟩

/-! ## C2: pinned-certificate reconciliation in the dispatch helpers -/

/-- Claim C2 counterexample: with a certificate pinned and a byte-for-byte
different peer certificate on the session, the put, post and delete helpers
still decode and return the envelope — the claimed certificate-changed failure
does not happen on these helpers. -/
theorem C2_put_decodes_despite_pin_mismatch :
    clientC2.scert = some pinnedC2 ∧
    respC2.tls = some ⟨[9, 9, 9]⟩ ∧
    pinnedC2.raw ≠ [9, 9, 9] ∧
    Client.put clientC2 Json.null (some respC2) = (clientC2, Except.ok envC2) ∧
    Client.post clientC2 Json.null (some respC2) = (clientC2, Except.ok envC2) ∧
    Client.delete_ clientC2 Json.null (some respC2) = (clientC2, Except.ok envC2) := by
  refine ⟨rfl, rfl, by decide, rfl, rfl, rfl⟩

/-- Claim C2 amended: only the get helper reconciles the peer certificate with
the pinned one — on a get with a pinned certificate and a byte-for-byte
different peer certificate the call fails with the server-certificate-changed
error, the client state is unchanged and no envelope is decoded or returned;
put, post and delete perform no comparison (their result never depends on the
pinned certificate). -/
theorem C2_only_get_checks_pin :
    (∀ (ext : ExtCap) (c : Client) (s : Cert) (t : ConnState) (r : HttpResp),
        c.scert = some s → r.tls = some t → t.peerFirstRaw ≠ s.raw →
        Client.get ext c (some r) = (c, Except.error "Server certificate has changed")) ∧
    (∀ (c c' : Client) (args : Json) (resp : Option HttpResp),
        (Client.put c args resp).2 = (Client.put c' args resp).2 ∧
        (Client.post c args resp).2 = (Client.post c' args resp).2 ∧
        (Client.delete_ c args resp).2 = (Client.delete_ c' args resp).2) := by
  constructor
  · intro ext c s t r hs ht hne
    simp [Client.get, hs, ht, hne]
  · intro c c' args resp
    cases resp <;> exact ⟨rfl, rfl, rfl⟩

/-- Witness for the amended C2: the mismatch failure on a concrete get. -/
theorem C2_only_get_checks_pin_witness :
    Client.get ext0 clientC2 (some respC2) =
      (clientC2, Except.error "Server certificate has changed") :=
  C2_only_get_checks_pin.1 ext0 clientC2 pinnedC2 ⟨[9, 9, 9]⟩ respC2 rfl rfl (by decide)

/-! ## C3: what SetResult does to status and mayCancel -/

/-- Claim C3 counterexample: SetResult does not touch Status or MayCancel — on
a running cancellable operation, SetResult with an error leaves the status
Running and mayCancel true, so the claimed Done/false postcondition fails. -/
theorem C3_setResult_not_done :
    ¬ ((Operation.SetResult op0 (some "boom") 5 marshal0).Status = Done ∧
       (Operation.SetResult op0 (some "boom") 5 marshal0).MayCancel = false) := by
  decide

/-- Claim C3 amended: immediately after SetResult(err) the Operation's status
and mayCancel flag are exactly what they were before the call (so they are
Done and false only if already so); moving the status to Done and clearing
mayCancel is SetStatus's job, not SetResult's. -/
theorem C3_setResult_preserves_status (o : Operation) (err : Option String) (now : Nat)
    (marshal : String → Option Json) :
    (Operation.SetResult o err now marshal).Status = o.Status ∧
    (Operation.SetResult o err now marshal).MayCancel = o.MayCancel := by
  cases err <;> exact ⟨rfl, rfl⟩

/-! ## C4: what envelope decoding validates -/

def bodyC4 : Json :=
  Json.obj [("type", Json.str "sync"), ("operation", Json.str "/1.0/operations/1")]

def respC4 : Response := { zeroResponse with Ty := "sync", Operation := "/1.0/operations/1" }

/-- Claim C4 counterexample: a body whose kind is Sync but which populates the
Async-only operation field decodes successfully, so decoding is not restricted
to bodies whose present fields are exactly those the kind permits. -/
theorem C4_sync_with_operation_decodes :
    ParseResponse (some bodyC4) = some respC4 ∧ respC4.Ty = Sync ∧ respC4.Operation ≠ "" :=
  ⟨rfl, rfl, by decide⟩

/-- Claim C4 amended: decoding enforces only the Envelope's field types, never
the kind-dependent field combinations: a JSON object all of whose known fields
are well-typed decodes successfully whatever combination of fields is present,
while a body that is not a well-typed object (or null) fails to decode. -/
theorem C4_decoding_checks_types_not_kind :
    (∀ (t res op : String) (ec : Int) (es : String) (md : Json),
        unmarshalResponse (Json.obj [("type", Json.str t), ("result", Json.str res),
            ("operation", Json.str op), ("error_code", Json.num ec), ("error", Json.str es),
            ("metadata", md)]) =
          some { Ty := t, Result := res, Operation := op, Code := ec, Error := es,
                 Metadata := some md }) ∧
    unmarshalResponse (Json.num 5) = none ∧
    unmarshalResponse (Json.str "x") = none ∧
    unmarshalResponse (Json.arr []) = none ∧
    unmarshalResponse (Json.obj [("type", Json.num 3)]) = none := by
  refine ⟨?_, rfl, rfl, rfl, rfl⟩
  intro t res op ec es md
  rfl

/-! ## C5: SetResult's result, code, metadata and timestamp -/

/-- Claim C5: SetResult(nil) yields Success with numeric code 1; SetResult(err)
yields Failure with numeric code 0 and overwrites Metadata with the marshalled
error text whatever the marshal outcome — including a marshal failure, which
is therefore never propagated; UpdatedAt is refreshed in both cases. -/
theorem C5_setResult_result_codes (o : Operation) (err : Option String) (now : Nat)
    (marshal : String → Option Json) :
    (err = none →
      (Operation.SetResult o err now marshal).Result = Success ∧
      (Operation.SetResult o err now marshal).ResultCode = 1 ∧
      (Operation.SetResult o err now marshal).UpdatedAt = now) ∧
    (∀ msg, err = some msg →
      (Operation.SetResult o err now marshal).Result = Failure ∧
      (Operation.SetResult o err now marshal).ResultCode = 0 ∧
      (Operation.SetResult o err now marshal).Metadata = marshal msg ∧
      (Operation.SetResult o err now marshal).UpdatedAt = now) := by
  constructor
  · intro h; subst h; exact ⟨rfl, rfl, rfl⟩
  · intro msg h; subst h; exact ⟨rfl, rfl, rfl, rfl⟩

/-- Witness for C5, exercising both branches and a failing marshaller: the
operation still reports Failure and its metadata is the nil result. -/
theorem C5_setResult_result_codes_witness :
    (Operation.SetResult op0 none 7 marshalFail).Result = Success ∧
    (Operation.SetResult op0 (some "boom") 7 marshalFail).Result = Failure ∧
    (Operation.SetResult op0 (some "boom") 7 marshalFail).Metadata = none :=
  ⟨((C5_setResult_result_codes op0 none 7 marshalFail).1 rfl).1,
   ((C5_setResult_result_codes op0 (some "boom") 7 marshalFail).2 "boom" rfl).1,
   ((C5_setResult_result_codes op0 (some "boom") 7 marshalFail).2 "boom" rfl).2.2.1⟩

/-! ## C6: SetStatus on the five statuses -/

/-- Claim C6: for each of the five statuses, SetStatus sets the status,
refreshes updatedAt, sets the numeric status code to the wire encoding
(Pending 0, Running 1, Done 2, Cancelling 3, Cancelled 4), and assigns
mayCancel false exactly when the status is Done, Cancelling or Cancelled
(otherwise mayCancel is left as it was). -/
theorem C6_setStatus_fields (o : Operation) (s : String) (now : Nat)
    (h : s = Pending ∨ s = Running ∨ s = Done ∨ s = Cancelling ∨ s = Cancelled) :
    (Operation.SetStatus o s now).Status = s ∧
    (Operation.SetStatus o s now).UpdatedAt = now ∧
    (Operation.SetStatus o s now).StatusCode = StatusCodes s ∧
    (s = Pending → (Operation.SetStatus o s now).StatusCode = 0) ∧
    (s = Running → (Operation.SetStatus o s now).StatusCode = 1) ∧
    (s = Done → (Operation.SetStatus o s now).StatusCode = 2) ∧
    (s = Cancelling → (Operation.SetStatus o s now).StatusCode = 3) ∧
    (s = Cancelled → (Operation.SetStatus o s now).StatusCode = 4) ∧
    ((s = Done ∨ s = Cancelling ∨ s = Cancelled) →
      (Operation.SetStatus o s now).MayCancel = false) ∧
    (¬ (s = Done ∨ s = Cancelling ∨ s = Cancelled) →
      (Operation.SetStatus o s now).MayCancel = o.MayCancel) := by
  rw [setStatus_eq]
  refine ⟨rfl, rfl, rfl, ?_, ?_, ?_, ?_, ?_, ?_, ?_⟩
  · intro hp; subst hp; rfl
  · intro hp; subst hp; rfl
  · intro hp; subst hp; rfl
  · intro hp; subst hp; rfl
  · intro hp; subst hp; rfl
  · intro hc; exact if_pos hc
  · intro hc; exact if_neg hc

/-- Witness for C6 at the Done status. -/
theorem C6_setStatus_fields_witness :
    (Operation.SetStatus op0 Done 3).Status = Done ∧
    (Operation.SetStatus op0 Done 3).StatusCode = 2 ∧
    (Operation.SetStatus op0 Done 3).MayCancel = false := by
  have h := C6_setStatus_fields op0 Done 3 (Or.inr (Or.inr (Or.inl rfl)))
  exact ⟨h.1, h.2.2.2.2.2.1 rfl, h.2.2.2.2.2.2.2.2.1 (Or.inl rfl)⟩

/-! ## C7: the extract-error-or-nil operation -/

/-- Claim C7: ParseError returns the failure carrying the envelope's error
message exactly when the kind is Error, and nil for every Sync or Async
envelope. -/
theorem C7_parseError_iff (r : Response) :
    (r.Ty = Error → ParseError r = some r.Error) ∧
    ((r.Ty = Sync ∨ r.Ty = Async) → ParseError r = none) ∧
    (ParseError r ≠ none → r.Ty = Error) := by
  refine ⟨fun h => ?_, fun h => ?_, fun h => ?_⟩
  · simp [ParseError, h]
  · have hne : r.Ty ≠ Error := by
      rcases h with h | h <;> rw [h] <;> decide
    simp [ParseError, hne]
  · by_cases he : r.Ty = Error
    · exact he
    · exact absurd (by simp [ParseError, he]) h

def respErrC7 : Response := { zeroResponse with Ty := "error", Error := "boom" }

def respSyncC7 : Response := { zeroResponse with Ty := "sync" }

/-- Witness for C7 on a concrete Error and a concrete Sync envelope. -/
theorem C7_parseError_iff_witness :
    ParseError respErrC7 = some "boom" ∧ ParseError respSyncC7 = none :=
  ⟨(C7_parseError_iff respErrC7).1 rfl, (C7_parseError_iff respSyncC7).2.1 (Or.inl rfl)⟩

/-! ## C8: TOFU decline persists nothing -/

/-- Claim C8: when the operator declines the presented fingerprint (the first
input byte is neither y nor Y), UserAuthServerCert writes no certificate file
and fails with the trust-rejection error; and any run of it that does write a
certificate file was acknowledged with an explicit y or Y. -/
theorem C8_decline_persists_nothing :
    (∀ (c : Client) (env : AuthEnv) (ch : Char),
        c.scertDigestSet = true → env.stdinFirst = some ch → ch ≠ 'y' → ch ≠ 'Y' →
        Client.UserAuthServerCert c env =
          some (some "Server certificate NACKed by user", none)) ∧
    (∀ (c : Client) (env : AuthEnv) (res : Option String) (w : String × List Nat),
        Client.UserAuthServerCert c env = some (res, some w) →
        env.stdinFirst = some 'y' ∨ env.stdinFirst = some 'Y') := by
  constructor
  · intro c env ch hset hin h1 h2
    have hcond : ¬ (c.scertDigestSet = false) := by rw [hset]; decide
    unfold Client.UserAuthServerCert
    rw [if_neg hcond, hin]
    simp only [userAuthAfterRead]
    rw [if_pos (And.intro h1 h2)]
  · intro c env res w h
    unfold Client.UserAuthServerCert at h
    by_cases h1 : c.scertDigestSet = false
    · rw [if_pos h1] at h
      simp at h
    · rw [if_neg h1] at h
      cases hin : env.stdinFirst with
      | none =>
        rw [hin] at h
        simp [userAuthAfterRead] at h
      | some ch =>
        rw [hin] at h
        simp only [userAuthAfterRead] at h
        by_cases h2 : ch ≠ 'y' ∧ ch ≠ 'Y'
        · rw [if_pos h2] at h
          simp at h
        · rcases not_and_or.mp h2 with hh | hh
          · exact Or.inl (by rw [not_not.mp hh])
          · exact Or.inr (by rw [not_not.mp hh])

def envDecline : AuthEnv :=
  { stdinFirst := some 'n', homedir := "/root", mkdirOk := true, createOk := true }

/-- Witness for C8: a concrete decline. -/
theorem C8_decline_persists_nothing_witness :
    Client.UserAuthServerCert clientC2 envDecline =
      some (some "Server certificate NACKed by user", none) :=
  C8_decline_persists_nothing.1 clientC2 envDecline 'n' rfl rfl (by decide) (by decide)

/-! ## C9: PullFile on a non-200 response with a non-Error envelope -/

/-- Claim C9: a PullFile whose HTTP status is not 200 but whose body decodes to
an envelope of a kind other than Error returns zero uid, gid and mode, a nil
stream handle and a nil error — the caller observes success with no readable
body. -/
theorem C9_pullFile_silent_non200 (c : Client) (r : HttpResp) (resp : Response)
    (h200 : r.statusCode ≠ 200) (hp : ParseResponse r.body = some resp)
    (he : resp.Ty ≠ Error) :
    Client.PullFile c (some r) = ⟨0, 0, 0, none, none⟩ := by
  simp only [Client.PullFile]
  rw [if_pos h200, hp]
  simp [ParseError, he]

def respC9 : HttpResp :=
  { statusCode := 500, tls := none, header := [], bodyStream := 7,
    body := some (Json.obj [("type", Json.str "sync")]) }

/-- Witness for C9: a concrete 500 response carrying a sync envelope. -/
theorem C9_pullFile_silent_non200_witness :
    Client.PullFile clientC2 (some respC9) = ⟨0, 0, 0, none, none⟩ :=
  C9_pullFile_silent_non200 clientC2 respC9 envC2 (by decide) rfl (by decide)

/-! ## C10: the frame of SetStatus -/

/-- Claim C10 (frame): SetStatus changes only Status, StatusCode, UpdatedAt and
MayCancel — Result, ResultCode, ResourceURL, Metadata, CreatedAt, the run and
cancel hooks and the completion channel are preserved — and it never sets
MayCancel to true. -/
theorem C10_setStatus_frame (o : Operation) (s : String) (now : Nat) :
    (Operation.SetStatus o s now).Result = o.Result ∧
    (Operation.SetStatus o s now).ResultCode = o.ResultCode ∧
    (Operation.SetStatus o s now).ResourceURL = o.ResourceURL ∧
    (Operation.SetStatus o s now).Metadata = o.Metadata ∧
    (Operation.SetStatus o s now).CreatedAt = o.CreatedAt ∧
    (Operation.SetStatus o s now).Run = o.Run ∧
    (Operation.SetStatus o s now).Cancel = o.Cancel ∧
    (Operation.SetStatus o s now).Chan = o.Chan ∧
    ((Operation.SetStatus o s now).MayCancel = true → o.MayCancel = true) := by
  rw [setStatus_eq]
  refine ⟨rfl, rfl, rfl, rfl, rfl, rfl, rfl, rfl, fun h => ?_⟩
  by_cases hc : s = Done ∨ s = Cancelling ∨ s = Cancelled
  · have h' : (if s = Done ∨ s = Cancelling ∨ s = Cancelled then false
        else o.MayCancel) = true := h
    rw [if_pos hc] at h'
    exact absurd h' (by decide)
  · have h' : (if s = Done ∨ s = Cancelling ∨ s = Cancelled then false
        else o.MayCancel) = true := h
    rw [if_neg hc] at h'
    exact h'

/-- Witness for C10: SetStatus to Pending on a cancellable operation. -/
theorem C10_setStatus_frame_witness :
    (Operation.SetStatus op0 Pending 9).Result = op0.Result ∧ op0.MayCancel = true :=
  ⟨(C10_setStatus_frame op0 Pending 9).1,
   (C10_setStatus_frame op0 Pending 9).2.2.2.2.2.2.2.2 (by decide)⟩
